import Mathlib

/-!
# Verification of the telegram-speedtest-bot core

Shallow embedding of the node-link parsers (`parser.py`), the probe engine and
quality scorer (`speedtester.py`), the advanced scorer (`advanced_speedtester.py`,
`platform_unlock_tester.py`) and the batch orchestrator (`speedtester.py`),
together with theorems settling the specification claims.

Modelling conventions:
* Python `None`-able values are `Option`; Python truthiness of strings/options is
  made explicit (`truthyS`); machine-level floats are modelled as `ℚ` (every
  number the scorer compares is produced and consumed exactly, no rounding error
  is relevant to the compared thresholds).
* Python exceptions are modelled with `Except`: each parser body is a function
  into `Except PyErr (Option Node)`; the source's `try/except: return None`
  wrapper is a separate definition, so "no exception escapes" is a theorem.
* Network and clock effects (TCP connects, HTTP downloads, geo lookups, the
  unlock checker) are oracles: their structured outcomes are parameters of the
  functions that consume them, exactly in the shape the source produces/reads.
-/

namespace SpeedBot

/-- Python truthiness of an optional string: `None` and `""` are falsy. -/
def truthyS : Option String → Bool
  | none => false
  | some s => !(s == "")

/-- Python `str.strip()` (whitespace from both ends; list-level so that the
kernel can evaluate it). -/
def strStrip (s : String) : String :=
  String.mk (((s.data.dropWhile Char.isWhitespace).reverse.dropWhile Char.isWhitespace).reverse)

/-- Python `str.startswith` (list-level). -/
def strStartsWith (s pre : String) : Bool := pre.data.isPrefixOf s.data

/-! ## Base64 (`base64.b64decode`, default `validate=False`)

Characters outside the base64 alphabet are discarded, data characters are the
ones before the first `'='`, and incorrect padding is an error (a final group
of one data character, or a final group of 2–3 data characters with no padding
present).  Decoding a `str` first requires it to be pure ASCII. -/

def b64Val (c : Char) : Option Nat :=
  if 'A' ≤ c ∧ c ≤ 'Z' then some (c.toNat - 65)
  else if 'a' ≤ c ∧ c ≤ 'z' then some (c.toNat - 71)
  else if '0' ≤ c ∧ c ≤ '9' then some (c.toNat + 4)
  else if c = '+' then some 62
  else if c = '/' then some 63
  else none

def b64Quads : List Nat → List Nat
  | a :: b :: c :: d :: rest =>
      (a * 4 + b / 16) :: ((b % 16) * 16 + c / 4) :: ((c % 4) * 64 + d) :: b64Quads rest
  | [a, b] => [a * 4 + b / 16]
  | [a, b, c] => [a * 4 + b / 16, (b % 16) * 16 + c / 4]
  | _ => []

def isB64Sym (c : Char) : Bool := (b64Val c).isSome || c = '='

def b64decode (s : String) : Option (List Nat) :=
  if s.data.any (fun c => 128 ≤ c.toNat) then none
  else
    let syms := s.data.filter isB64Sym
    let dataChars := syms.takeWhile (fun c => c ≠ '=')
    let hasPad := decide (dataChars.length < syms.length)
    let ds := dataChars.filterMap b64Val
    if ds.length % 4 = 1 then none
    else if ds.length % 4 ≠ 0 ∧ hasPad = false then none
    else some (b64Quads ds)

/-! ## UTF-8 decoding (strict, as Python `bytes.decode('utf-8')`) -/

def utf8Cont (b : Nat) : Bool := 128 ≤ b ∧ b < 192

def utf8Go (fuel : Nat) (l : List Nat) : Option (List Char) :=
  match fuel, l with
  | _, [] => some []
  | 0, _ => none
  | fuel + 1, b :: rest =>
    if b < 128 then (utf8Go fuel rest).map (Char.ofNat b :: ·)
    else if 194 ≤ b ∧ b ≤ 223 then
      match rest with
      | c1 :: rest' =>
        if utf8Cont c1 then
          (utf8Go fuel rest').map (Char.ofNat ((b - 192) * 64 + (c1 - 128)) :: ·)
        else none
      | _ => none
    else if 224 ≤ b ∧ b ≤ 239 then
      match rest with
      | c1 :: c2 :: rest' =>
        let lo1 := if b = 224 then 160 else 128
        let hi1 := if b = 237 then 159 else 191
        if (lo1 ≤ c1 ∧ c1 ≤ hi1) ∧ utf8Cont c2 then
          (utf8Go fuel rest').map
            (Char.ofNat ((b - 224) * 4096 + (c1 - 128) * 64 + (c2 - 128)) :: ·)
        else none
      | _ => none
    else if 240 ≤ b ∧ b ≤ 244 then
      match rest with
      | c1 :: c2 :: c3 :: rest' =>
        let lo1 := if b = 240 then 144 else 128
        let hi1 := if b = 244 then 143 else 191
        if (lo1 ≤ c1 ∧ c1 ≤ hi1) ∧ utf8Cont c2 ∧ utf8Cont c3 then
          (utf8Go fuel rest').map
            (Char.ofNat ((b - 240) * 262144 + (c1 - 128) * 4096 + (c2 - 128) * 64 + (c3 - 128)) :: ·)
        else none
      | _ => none
    else none

def utf8Decode (bs : List Nat) : Option String :=
  (utf8Go bs.length bs).map List.asString

/-! ## URL parsing (CPython `urllib.parse.urlsplit` and its named properties)

Only the pieces the source reads are modelled: `scheme`, `netloc`, `query`,
`fragment`, and the derived `username`, `password`, `hostname` and `port`
properties.  Reading `.port` raises `ValueError` on a non-numeric or
out-of-range (not 0–65535) port, which is modelled with `Except`. -/

/-- Split a character list at the first occurrence of `sep` (Python
`str.split(sep, 1)` when the separator occurs). -/
def splitFirst (cs : List Char) (sep : Char) : Option (List Char × List Char) :=
  if sep ∈ cs then some (cs.takeWhile (· ≠ sep), (cs.dropWhile (· ≠ sep)).drop 1)
  else none

/-- Split at the last occurrence of `sep` (Python `str.rpartition`), if any. -/
def splitLast (cs : List Char) (sep : Char) : Option (List Char × List Char) :=
  match splitFirst cs.reverse sep with
  | some (rafter, rbefore) => some (rbefore.reverse, rafter.reverse)
  | none => none

def schemeChar (c : Char) : Bool := c.isAlpha || c.isDigit || c = '+' || c = '-' || c = '.'

structure UrlParts where
  scheme : List Char
  netloc : List Char
  path : List Char
  query : List Char
  fragment : List Char
deriving DecidableEq, Repr

/-- Models `urlsplit`: scheme, `//netloc`, `#fragment`, `?query`.  The only
`ValueError` it can raise itself is the unbalanced-bracket check on `netloc`. -/
def urlsplitE (url : String) : Except Unit UrlParts :=
  let cs := url.data
  let (scheme, rest) :=
    match splitFirst cs ':' with
    | some (pre, post) =>
      if pre ≠ [] ∧ (pre.headD ' ').isAlpha ∧ pre.all schemeChar
      then (pre.map Char.toLower, post) else ([], cs)
    | none => ([], cs)
  let (netloc, rest) :=
    if rest.take 2 = ['/', '/'] then
      let after := rest.drop 2
      let nl := after.takeWhile (fun c => ¬(c = '/' ∨ c = '?' ∨ c = '#'))
      (nl, after.drop nl.length)
    else ([], rest)
  if ('[' ∈ netloc) ≠ (']' ∈ netloc) then .error ()
  else
    let (rest, fragment) :=
      match splitFirst rest '#' with
      | some (a, b) => (a, b)
      | none => (rest, [])
    let (path, query) :=
      match splitFirst rest '?' with
      | some (a, b) => (a, b)
      | none => (rest, [])
    .ok ⟨scheme, netloc, path, query, fragment⟩

/-- The pair `(userinfo-or-none, hostinfo)` from the netloc (`rpartition('@')`). -/
def UrlParts.userinfoHostinfo (u : UrlParts) : Option (List Char) × List Char :=
  match splitLast u.netloc '@' with
  | some (ui, hi) => (some ui, hi)
  | none => (none, u.netloc)

/-- Models `SplitResult.username`: may be `some ""`. -/
def UrlParts.username (u : UrlParts) : Option String :=
  match u.userinfoHostinfo.1 with
  | none => none
  | some ui =>
    match splitFirst ui ':' with
    | some (user, _) => some (String.mk user)
    | none => some (String.mk ui)

/-- Models `SplitResult.password`. -/
def UrlParts.password (u : UrlParts) : Option String :=
  match u.userinfoHostinfo.1 with
  | none => none
  | some ui =>
    match splitFirst ui ':' with
    | some (_, pw) => some (String.mk pw)
    | none => none

/-- Models `SplitResult._hostinfo`: raw host part and raw port string (bracketed
IPv6 hosts handled as in CPython). -/
def UrlParts.hostinfoParts (u : UrlParts) : List Char × Option (List Char) :=
  let hi := u.userinfoHostinfo.2
  let (host, port) :=
    if '[' ∈ hi then
      let bracketed := (hi.dropWhile (· ≠ '[')).drop 1
      let host := bracketed.takeWhile (· ≠ ']')
      let rest := (bracketed.dropWhile (· ≠ ']')).drop 1
      match splitFirst rest ':' with
      | some (_, p) => (host, p)
      | none => (host, [])
    else
      match splitFirst hi ':' with
      | some (h, p) => (h, p)
      | none => (hi, [])
  (host, if port = [] then none else some port)

/-- Models `SplitResult.hostname`: `None` when empty, else lowercased (an IPv6 zone
suffix after `'%'` is preserved unlowercased, as in CPython). -/
def UrlParts.hostname (u : UrlParts) : Option String :=
  let host := u.hostinfoParts.1
  if host = [] then none
  else
    let main := host.takeWhile (· ≠ '%')
    let zone := host.dropWhile (· ≠ '%')
    some (String.mk (main.map Char.toLower ++ zone))

/-- Python `int(s)` / `int(s, 10)` on a string: optional surrounding
whitespace, optional sign, one or more digits (digit-group underscores are
not modelled; inputs using them are treated as errors). -/
def pyStrToInt (s : List Char) : Option Int :=
  let t := (s.dropWhile Char.isWhitespace).reverse.dropWhile Char.isWhitespace |>.reverse
  let (neg, digits) :=
    match t with
    | '-' :: ds => (true, ds)
    | '+' :: ds => (false, ds)
    | ds => (false, ds)
  if digits = [] ∨ ¬digits.all Char.isDigit then none
  else
    let n : Nat := digits.foldl (fun acc c => acc * 10 + (c.toNat - 48)) 0
    some (if neg then -(n : Int) else (n : Int))

/-- Models `SplitResult.port`: `None` when absent, `ValueError` when non-numeric or
outside 0–65535. -/
def UrlParts.port (u : UrlParts) : Except Unit (Option Int) :=
  match u.hostinfoParts.2 with
  | none => .ok none
  | some p =>
    match pyStrToInt p with
    | none => .error ()
    | some v => if 0 ≤ v ∧ v ≤ 65535 then .ok (some v) else .error ()

/-! ## Percent decoding and query-string parsing -/

def hexVal (c : Char) : Option Nat :=
  if '0' ≤ c ∧ c ≤ '9' then some (c.toNat - 48)
  else if 'a' ≤ c ∧ c ≤ 'f' then some (c.toNat - 87)
  else if 'A' ≤ c ∧ c ≤ 'F' then some (c.toNat - 55)
  else none

/-- Collect a maximal run of `%XX` byte escapes. -/
def pctRun (fuel : Nat) (cs : List Char) : List Nat × List Char :=
  match fuel, cs with
  | fuel + 1, '%' :: h :: l :: rest =>
    match hexVal h, hexVal l with
    | some hv, some lv =>
      let (bs, rest') := pctRun fuel rest
      ((hv * 16 + lv) :: bs, rest')
    | _, _ => ([], cs)
  | _, _ => ([], cs)

/-- Python `urllib.parse.unquote` with `errors='replace'`: runs of `%XX`
escapes are UTF-8 decoded; a run that is not valid UTF-8 degrades to its
ASCII bytes with non-ASCII bytes replaced by U+FFFD (an approximation of
CPython's per-byte replacement). -/
def unquoteGo (fuel : Nat) (cs : List Char) : List Char :=
  match fuel, cs with
  | _, [] => []
  | 0, cs => cs
  | fuel + 1, c :: rest =>
    if c = '%' then
      let (bs, rest') := pctRun (fuel + 1) (c :: rest)
      if bs = [] then c :: unquoteGo fuel rest
      else
        let decoded :=
          match utf8Go bs.length bs with
          | some chars => chars
          | none => bs.map (fun b => if b < 128 then Char.ofNat b else '�')
        decoded ++ unquoteGo fuel (rest'.take fuel)
    else c :: unquoteGo fuel rest

def unquote (s : String) : String := String.mk (unquoteGo s.data.length s.data)

/-- Models `unquote_plus`: `'+'` becomes a space, then percent decoding. -/
def unquote_plus (s : String) : String :=
  unquote (String.mk (s.data.map fun c => if c = '+' then ' ' else c))

/-- Python `parse_qsl` with default options: split on `'&'`, skip empty
chunks, skip chunks without `'='`, skip pairs whose value is empty. -/
def parse_qsl (query : List Char) : List (String × String) :=
  (query.splitOn '&').filterMap fun nv =>
    if nv = [] then none
    else
      match splitFirst nv '=' with
      | none => none
      | some (name, value) =>
        if value = [] then none
        else some (unquote_plus (String.mk name), unquote_plus (String.mk value))

/-- Models `query_params.get(key, [default])[0]`: the first value recorded for
`key`, or `default` when the key is absent (`parse_qs` groups `parse_qsl`
pairs by key in order). -/
def qsGet (pairs : List (String × String)) (key default : String) : String :=
  match pairs.filter (fun p => p.1 == key) with
  | [] => default
  | p :: _ => p.2

/-! ## JSON (`json.loads`, restricted)

Integers, strings (with the single-character escapes), booleans, `null`,
arrays and objects are supported.  Payloads that use floats or `\uXXXX`
escapes are treated as undecodable (a stricter failure than CPython, which
only widens the set of inputs our parsers map to `None`). -/

inductive Json where
  | null
  | bool (b : Bool)
  | num (n : Int)
  | str (s : String)
  | arr (elems : List Json)
  | obj (fields : List (String × Json))
deriving Repr

def jsonWs (c : Char) : Bool := c = ' ' ∨ c = '\t' ∨ c = '\n' ∨ c = '\r'

def jsonSkipWs (cs : List Char) : List Char := cs.dropWhile jsonWs

def jsonEscape (c : Char) : Option Char :=
  if c = '"' then some '"'
  else if c = '\\' then some '\\'
  else if c = '/' then some '/'
  else if c = 'b' then some (Char.ofNat 8)
  else if c = 'f' then some (Char.ofNat 12)
  else if c = 'n' then some '\n'
  else if c = 'r' then some '\r'
  else if c = 't' then some '\t'
  else none

/-- Parse the remainder of a string literal (after the opening quote). -/
def jsonString (fuel : Nat) (cs : List Char) : Option (String × List Char) :=
  match fuel, cs with
  | 0, _ => none
  | _, [] => none
  | fuel + 1, c :: rest =>
    if c = '"' then some ("", rest)
    else if c = '\\' then
      match rest with
      | e :: rest' =>
        match jsonEscape e with
        | some d => (jsonString fuel rest').map (fun (s, r) => (String.mk (d :: s.data), r))
        | none => none
      | [] => none
    else if c.toNat < 32 then none
    else (jsonString fuel rest).map (fun (s, r) => (String.mk (c :: s.data), r))

/-- Parse an integer literal (leading zeros are rejected; a following `.`,
`e` or `E` would make it a float, which is rejected). -/
def jsonNumber (cs : List Char) : Option (Int × List Char) :=
  let (neg, cs') := match cs with
    | '-' :: rest => (true, rest)
    | _ => (false, cs)
  let digits := cs'.takeWhile Char.isDigit
  let rest := cs'.dropWhile Char.isDigit
  if digits = [] then none
  else if digits.length > 1 ∧ digits.headD '0' = '0' then none
  else
    match rest with
    | '.' :: _ => none
    | 'e' :: _ => none
    | 'E' :: _ => none
    | _ =>
      let n : Nat := digits.foldl (fun acc c => acc * 10 + (c.toNat - 48)) 0
      some (if neg then -(n : Int) else (n : Int), rest)

mutual

def jsonValue (fuel : Nat) (cs : List Char) : Option (Json × List Char) :=
  match fuel with
  | 0 => none
  | fuel + 1 =>
    match jsonSkipWs cs with
    | [] => none
    | c :: rest =>
      if c = 'n' then
        match rest with
        | 'u' :: 'l' :: 'l' :: r => some (.null, r)
        | _ => none
      else if c = 't' then
        match rest with
        | 'r' :: 'u' :: 'e' :: r => some (.bool true, r)
        | _ => none
      else if c = 'f' then
        match rest with
        | 'a' :: 'l' :: 's' :: 'e' :: r => some (.bool false, r)
        | _ => none
      else if c = '"' then
        (jsonString rest.length rest).map (fun (s, r) => (.str s, r))
      else if c = '[' then
        match jsonSkipWs rest with
        | ']' :: r => some (.arr [], r)
        | _ => (jsonElems fuel rest).map (fun (es, r) => (.arr es, r))
      else if c = '{' then
        match jsonSkipWs rest with
        | '}' :: r => some (.obj [], r)
        | _ => (jsonMembers fuel rest).map (fun (fs, r) => (.obj fs, r))
      else
        (jsonNumber (c :: rest)).map (fun (n, r) => (.num n, r))

/-- One or more comma-separated array elements, then `]`. -/
def jsonElems (fuel : Nat) (cs : List Char) : Option (List Json × List Char) :=
  match fuel with
  | 0 => none
  | fuel + 1 =>
    match jsonValue fuel cs with
    | none => none
    | some (v, rest) =>
      match jsonSkipWs rest with
      | ',' :: r => (jsonElems fuel r).map (fun (es, r') => (v :: es, r'))
      | ']' :: r => some ([v], r)
      | _ => none

/-- One or more comma-separated `"key": value` members, then `}`. -/
def jsonMembers (fuel : Nat) (cs : List Char) : Option (List (String × Json) × List Char) :=
  match fuel with
  | 0 => none
  | fuel + 1 =>
    match jsonSkipWs cs with
    | '"' :: rest =>
      match jsonString rest.length rest with
      | none => none
      | some (k, rest') =>
        match jsonSkipWs rest' with
        | ':' :: r =>
          match jsonValue fuel r with
          | none => none
          | some (v, rest'') =>
            match jsonSkipWs rest'' with
            | ',' :: r' => (jsonMembers fuel r').map (fun (fs, r'') => ((k, v) :: fs, r''))
            | '}' :: r' => some ([(k, v)], r')
            | _ => none
        | _ => none
    | _ => none

end

/-- Models `json.loads`: a single value with only whitespace around it. -/
def jsonLoads (s : String) : Option Json :=
  match jsonValue (s.length + 1) s.data with
  | some (v, rest) => if jsonSkipWs rest = [] then some v else none
  | none => none

/-- Python `dict.get` on a decoded JSON object (later duplicate keys win). -/
def jget (fields : List (String × Json)) (k : String) : Option Json :=
  fields.foldl (fun acc p => if p.1 == k then some p.2 else acc) none

/-- Models `str(...)`-valued field with a default: non-string JSON values are folded
into the default (the claims never inspect these fields). -/
def jstrD (fields : List (String × Json)) (k : String) (d : String) : String :=
  match jget fields k with
  | some (.str s) => s
  | _ => d

/-- Optional string field (`node_info.get(k)`); a non-string value is treated
as missing, which only shrinks the set of accepted payloads. -/
def jstrOpt (j : Option Json) : Option String :=
  match j with
  | some (.str s) => some s
  | _ => none

/-- Python `int(x)` on a JSON value: numbers pass through, numeric strings
are converted, booleans become 0/1, everything else raises. -/
def pyIntJson (j : Json) : Option Int :=
  match j with
  | .num n => some n
  | .str s => pyStrToInt s.data
  | .bool b => some (if b then 1 else 0)
  | _ => none

/-! ## The node descriptor (`parser.py`)

The parsers return Python dicts; they are modelled by one record whose fields
cover every key any of the five parsers writes, with neutral defaults for the
keys a given protocol does not set. -/

structure Node where
  name : String := ""
  server : Option String := none
  port : Int := 0
  uuid : Option String := none
  alterId : Int := 0
  protocol : String := ""
  tls : String := ""
  network : String := ""
  security : String := ""
  host : String := ""
  path : String := ""
  typ : String := ""
  sni : String := ""
  alpn : String := ""
  fp : String := ""
  encryption : String := ""
  flow : String := ""
  pbk : String := ""
  sid : String := ""
  headerType : String := ""
  method : Option String := none
  password : Option String := none
  plugin : String := ""
  plugin_opts : String := ""
  insecure : Bool := false
  obfs : String := ""
  obfs_password : String := ""
  up : String := ""
  down : String := ""
deriving DecidableEq, Repr

/-- Error values for the modelled Python exceptions. -/
abbrev PyErr := String

/-- Models `parse_vmess_link`, body of the `try` block. -/
def parse_vmess_body (link : String) : Except PyErr (Option Node) :=
  let encoded := strStrip (String.mk (link.data.drop 8))
  let missing := encoded.data.length % 4
  let encoded := if missing ≠ 0 then String.mk (encoded.data ++ List.replicate (4 - missing) '=') else encoded
  match b64decode encoded with
  | none => .error "binascii.Error"
  | some bs =>
    match utf8Decode bs with
    | none => .error "UnicodeDecodeError"
    | some txt =>
      match jsonLoads txt with
      | none => .error "json.JSONDecodeError"
      | some (.obj fields) =>
        match pyIntJson ((jget fields "port").getD (.num 443)) with
        | none => .error "ValueError: int(port)"
        | some port =>
          match pyIntJson ((jget fields "aid").getD (.num 0)) with
          | none => .error "ValueError: int(aid)"
          | some aid =>
            let node : Node :=
              { name := jstrD fields "ps" "Unknown VMess Node"
                server := jstrOpt (jget fields "add")
                port := port
                uuid := jstrOpt (jget fields "id")
                alterId := aid
                protocol := "vmess"
                tls := jstrD fields "tls" ""
                network := jstrD fields "net" "tcp"
                security := jstrD fields "scy" "auto"
                host := jstrD fields "host" ""
                path := jstrD fields "path" ""
                typ := jstrD fields "type" "none"
                sni := jstrD fields "sni" ""
                alpn := jstrD fields "alpn" ""
                fp := jstrD fields "fp" "" }
            if truthyS node.server = true ∧ node.port ≠ 0 ∧ truthyS node.uuid = true
            then .ok (some node) else .ok none
      | some _ => .error "AttributeError: .get"

/-- Models `parse_vmess_link`, with its prefix guard and `except Exception: return None`. -/
def parse_vmess_linkE (link : String) : Except PyErr (Option Node) :=
  if ¬strStartsWith link "vmess://" then .ok none
  else
    match parse_vmess_body link with
    | .ok r => .ok r
    | .error _ => .ok none

def parse_vmess_link (link : String) : Option Node :=
  match parse_vmess_linkE link with
  | .ok r => r
  | .error _ => none

/-- Models `parse_vless_link`, body of the `try` block. -/
def parse_vless_body (link : String) : Except PyErr (Option Node) :=
  match urlsplitE link with
  | .error _ => .error "ValueError: netloc brackets"
  | .ok up =>
    let qp := parse_qsl up.query
    match up.port with
    | .error _ => .error "ValueError: port"
    | .ok p =>
      let port : Int := match p with
        | some v => if v ≠ 0 then v else 443
        | none => 443
      let name :=
        if up.fragment ≠ [] then unquote (String.mk up.fragment) else "Unknown VLess Node"
      let node : Node :=
        { name := name
          server := up.hostname
          port := port
          uuid := up.username
          protocol := "vless"
          encryption := qsGet qp "encryption" "none"
          flow := qsGet qp "flow" ""
          security := qsGet qp "security" "none"
          sni := qsGet qp "sni" ""
          fp := qsGet qp "fp" ""
          pbk := qsGet qp "pbk" ""
          sid := qsGet qp "sid" ""
          typ := qsGet qp "type" "tcp"
          host := qsGet qp "host" ""
          path := qsGet qp "path" ""
          headerType := qsGet qp "headerType" "none"
          alpn := qsGet qp "alpn" "" }
      if truthyS node.server = true ∧ node.port ≠ 0 ∧ truthyS node.uuid = true
      then .ok (some node) else .ok none

def parse_vless_linkE (link : String) : Except PyErr (Option Node) :=
  if ¬strStartsWith link "vless://" then .ok none
  else
    match parse_vless_body link with
    | .ok r => .ok r
    | .error _ => .ok none

def parse_vless_link (link : String) : Option Node :=
  match parse_vless_linkE link with
  | .ok r => r
  | .error _ => none

/-- Credential extraction block of `parse_shadowsocks_link`: the new
`method:password@…` userinfo format, or the legacy base64 format.  `none`
models the legacy branch's inner `try/except: return None` (a *return*, not
an exception). -/
def ss_credentials (link : String) (up : UrlParts) : Option (String × String) :=
  if truthyS up.username = true ∧ truthyS up.password = true then
    some ((up.username).getD "", (up.password).getD "")
  else
    let encodedPart :=
      if '@' ∈ link.data then ((link.data.drop 5).takeWhile (· ≠ '@'))
      else ((link.data.drop 5).takeWhile (· ≠ '#'))
    let encoded := String.mk encodedPart
    let missing := encoded.data.length % 4
    let encoded := if missing ≠ 0 then String.mk (encoded.data ++ List.replicate (4 - missing) '=') else encoded
    match (b64decode encoded).bind utf8Decode with
    | none => none
    | some decoded =>
      match splitFirst decoded.data ':' with
      | some (m, pw) => some (String.mk m, String.mk pw)
      | none => some ("aes-256-gcm", decoded)

/-- Node construction and validation block of `parse_shadowsocks_link`. -/
def parse_ss_finish (up : UrlParts) (method password : String) :
    Except PyErr (Option Node) :=
  let name :=
    if up.fragment ≠ [] then unquote (String.mk up.fragment) else "Unknown SS Node"
  match up.port with
  | .error _ => .error "ValueError: port"
  | .ok p =>
    let port : Int := match p with
      | some v => if v ≠ 0 then v else 8388
      | none => 8388
    let node : Node :=
      { name := name
        server := up.hostname
        port := port
        method := some method
        password := some password
        protocol := "shadowsocks"
        plugin := ""
        plugin_opts := "" }
    if truthyS node.server = true ∧ node.port ≠ 0 ∧
        truthyS node.method = true ∧ truthyS node.password = true
    then .ok (some node) else .ok none

/-- Models `parse_shadowsocks_link`, body of the `try` block. -/
def parse_ss_body (link : String) : Except PyErr (Option Node) :=
  match urlsplitE link with
  | .error _ => .error "ValueError: netloc brackets"
  | .ok up =>
    match ss_credentials link up with
    | none => .ok none
    | some (method, password) => parse_ss_finish up method password

def parse_shadowsocks_linkE (link : String) : Except PyErr (Option Node) :=
  if ¬strStartsWith link "ss://" then .ok none
  else
    match parse_ss_body link with
    | .ok r => .ok r
    | .error _ => .ok none

def parse_shadowsocks_link (link : String) : Option Node :=
  match parse_shadowsocks_linkE link with
  | .ok r => r
  | .error _ => none

/-- Models `parse_hysteria2_link`, body of the `try` block.  Note that the final
check only covers `server` and `port`: the password is *not* validated. -/
def parse_hysteria2_body (link : String) : Except PyErr (Option Node) :=
  match urlsplitE link with
  | .error _ => .error "ValueError: netloc brackets"
  | .ok up =>
    let qp := parse_qsl up.query
    match up.port with
    | .error _ => .error "ValueError: port"
    | .ok p =>
      let port : Int := match p with
        | some v => if v ≠ 0 then v else 443
        | none => 443
      let name :=
        if up.fragment ≠ [] then unquote (String.mk up.fragment) else "Unknown Hysteria2 Node"
      let password : String :=
        match up.username with
        | some u => if u ≠ "" then u else qsGet qp "auth" ""
        | none => qsGet qp "auth" ""
      let node : Node :=
        { name := name
          server := up.hostname
          port := port
          password := some password
          protocol := "hysteria2"
          sni := qsGet qp "sni" ""
          insecure := qsGet qp "insecure" "0" == "1"
          obfs := qsGet qp "obfs" ""
          obfs_password := qsGet qp "obfs-password" ""
          up := qsGet qp "up" ""
          down := qsGet qp "down" "" }
      if truthyS node.server = true ∧ node.port ≠ 0
      then .ok (some node) else .ok none

def parse_hysteria2_linkE (link : String) : Except PyErr (Option Node) :=
  if ¬(strStartsWith link "hy2://" ∨ strStartsWith link "hysteria2://") then .ok none
  else
    match parse_hysteria2_body link with
    | .ok r => .ok r
    | .error _ => .ok none

def parse_hysteria2_link (link : String) : Option Node :=
  match parse_hysteria2_linkE link with
  | .ok r => r
  | .error _ => none

/-- Models `parse_trojan_link`, body of the `try` block. -/
def parse_trojan_body (link : String) : Except PyErr (Option Node) :=
  match urlsplitE link with
  | .error _ => .error "ValueError: netloc brackets"
  | .ok up =>
    let qp := parse_qsl up.query
    match up.port with
    | .error _ => .error "ValueError: port"
    | .ok p =>
      let port : Int := match p with
        | some v => if v ≠ 0 then v else 443
        | none => 443
      let name :=
        if up.fragment ≠ [] then unquote (String.mk up.fragment) else "Unknown Trojan Node"
      let node : Node :=
        { name := name
          server := up.hostname
          port := port
          password := up.username
          protocol := "trojan"
          sni := qsGet qp "sni" ""
          typ := qsGet qp "type" "tcp"
          host := qsGet qp "host" ""
          path := qsGet qp "path" ""
          security := qsGet qp "security" "tls"
          alpn := qsGet qp "alpn" ""
          fp := qsGet qp "fp" "" }
      if truthyS node.server = true ∧ node.port ≠ 0 ∧ truthyS node.password = true
      then .ok (some node) else .ok none

def parse_trojan_linkE (link : String) : Except PyErr (Option Node) :=
  if ¬strStartsWith link "trojan://" then .ok none
  else
    match parse_trojan_body link with
    | .ok r => .ok r
    | .error _ => .ok none

def parse_trojan_link (link : String) : Option Node :=
  match parse_trojan_linkE link with
  | .ok r => r
  | .error _ => none

/-- Models `parse_single_node`: strip, then dispatch on the scheme prefix. -/
def parse_single_nodeE (link : String) : Except PyErr (Option Node) :=
  let link := strStrip link
  if strStartsWith link "vmess://" then parse_vmess_linkE link
  else if strStartsWith link "vless://" then parse_vless_linkE link
  else if strStartsWith link "ss://" then parse_shadowsocks_linkE link
  else if strStartsWith link "hy2://" ∨ strStartsWith link "hysteria2://" then parse_hysteria2_linkE link
  else if strStartsWith link "trojan://" then parse_trojan_linkE link
  else .ok none

def parse_single_node (link : String) : Option Node :=
  match parse_single_nodeE link with
  | .ok r => r
  | .error _ => none

/-! ## Subscription content (`parse_subscription_content`) -/

/-- The opportunistic base64 layer: use the decoded text when both the
base64 and the UTF-8 decode succeed, the raw text otherwise. -/
def opportunisticDecode (content : String) : String :=
  match (b64decode content).bind utf8Decode with
  | some decoded => decoded
  | none => content

/-- One line of the loop body: strip, skip empties, parse. -/
def parseLine (l : String) : Option Node :=
  let t := strStrip l
  if t = "" then none else parse_single_node t

def parseLines (lines : List String) : List Node := lines.filterMap parseLine

def parse_subscription_content (content : String) : List Node :=
  parseLines (((strStrip (opportunisticDecode content)).data.splitOn '\n').map String.mk)

/-! ## Probe results and the quality scorer (`speedtester.py`)

`test_node_comprehensive` builds one result dict per node; a field that the
code may leave unset is an `Option` (Python's `dict.get` default is made
explicit at each read, exactly as in the source). -/

structure GeoInfo where
  country : Option String := none
  country_code : Option String := none
  region : Option String := none
  city : Option String := none
  isp : Option String := none
  org : Option String := none
deriving DecidableEq, Repr

/-- Outcome of `test_tcp_connectivity` (a network oracle): the dict always
holds a `status`, and whichever other keys that branch of the source sets. -/
structure ConnResult where
  status : String
  latency_ms : Option ℚ := none
  ip : Option String := none
  error : Option String := none
  geo_info : Option GeoInfo := none
  region : Option String := none
  isp : Option String := none
deriving DecidableEq, Repr

/-- Outcome of `test_http_speed_direct` (a network oracle). -/
structure SpeedResult where
  status : String
  download_speed_mbps : Option ℚ := none
  download_speed_kbps : Option ℚ := none
  downloaded_bytes : Option ℚ := none
  downloaded_mb : Option ℚ := none
  total_time_seconds : Option ℚ := none
  first_byte_latency_ms : Option ℚ := none
  test_url : Option String := none
  error : Option String := none
deriving DecidableEq, Repr

/-- The per-node result dict of `test_node_comprehensive` /
`test_multiple_nodes` (only keys the source writes or reads). -/
structure TestResult where
  name : String := ""
  server : Option String := none
  port : Int := 0
  protocol : String := ""
  status : Option String := none
  error : Option String := none
  latency_ms : Option ℚ := none
  ip : Option String := none
  region : Option String := none
  isp : Option String := none
  city : Option String := none
  country : Option String := none
  download_speed_mbps : Option ℚ := none
  download_speed_kbps : Option ℚ := none
  downloaded_bytes : Option ℚ := none
  downloaded_mb : Option ℚ := none
  test_duration : Option ℚ := none
  first_byte_latency : Option ℚ := none
  test_url : Option String := none
  speed_error : Option String := none
  overall_status : Option String := none
  status_emoji : Option String := none
  status_text : Option String := none
  quality_score : Option Int := none
deriving DecidableEq, Repr

/-- Connectivity block (30 pts + latency bonus) of `_calculate_quality_score`. -/
def connectivityPoints (result : TestResult) : Int :=
  if result.status = some "connected" then
    let latency := result.latency_ms.getD 1000
    30 + (if latency < 50 then 10
          else if latency < 100 then 8
          else if latency < 200 then 5
          else if latency < 500 then 2
          else 0)
  else 0

/-- Speed block (60 pts) of `_calculate_quality_score`. -/
def speedPoints (speed : ℚ) : Int :=
  if speed > 50 then 60
  else if speed > 20 then 50
  else if speed > 10 then 40
  else if speed > 5 then 30
  else if speed > 1 then 20
  else if speed > 0.1 then 10
  else 0

/-- Stability block (10 pts, first-byte latency) of `_calculate_quality_score`. -/
def stabilityPoints (first_byte : ℚ) : Int :=
  if first_byte < 200 then 10
  else if first_byte < 500 then 8
  else if first_byte < 1000 then 5
  else if first_byte < 2000 then 2
  else 0

/-- Models `RealSpeedTester._calculate_quality_score` (0-100): the sequential
`score += …` blocks of the source, summed, then clamped by `min(score, 100)`. -/
def _calculate_quality_score (result : TestResult) : Int :=
  min (connectivityPoints result
        + speedPoints (result.download_speed_mbps.getD 0)
        + stabilityPoints (result.first_byte_latency.getD 1000)) 100

/-- Models `RealSpeedTester._format_region`. -/
def _format_region (geo_info : GeoInfo) : String :=
  let country := geo_info.country.getD ""
  let country_code := (geo_info.country_code.getD "").toUpper
  let city := geo_info.city.getD ""
  let flagMap : List (String × String) :=
    [("US", "🇺🇸"), ("JP", "🇯🇵"), ("HK", "🇭🇰"), ("SG", "🇸🇬"), ("DE", "🇩🇪"),
     ("GB", "🇬🇧"), ("FR", "🇫🇷"), ("CA", "🇨🇦"), ("AU", "🇦🇺"), ("KR", "🇰🇷"),
     ("NL", "🇳🇱"), ("RU", "🇷🇺"), ("IN", "🇮🇳"), ("BR", "🇧🇷"), ("TW", "🇹🇼"),
     ("TH", "🇹🇭"), ("MY", "🇲🇾"), ("PH", "🇵🇭"), ("VN", "🇻🇳"), ("ID", "🇮🇩"),
     ("AE", "🇦🇪"), ("TR", "🇹🇷"), ("IL", "🇮🇱"), ("ZA", "🇿🇦"), ("AR", "🇦🇷"),
     ("CL", "🇨🇱"), ("MX", "🇲🇽"), ("ES", "🇪🇸"), ("IT", "🇮🇹"), ("CH", "🇨🇭"),
     ("SE", "🇸🇪"), ("NO", "🇳🇴"), ("DK", "🇩🇰"), ("FI", "🇫🇮"), ("PL", "🇵🇱"),
     ("CZ", "🇨🇿"), ("AT", "🇦🇹"), ("BE", "🇧🇪"), ("PT", "🇵🇹"), ("GR", "🇬🇷"),
     ("CN", "🇨🇳")]
  let flag := match flagMap.filter (fun p => p.1 == country_code) with
    | [] => "🌍"
    | p :: _ => p.2
  if city ≠ "" ∧ city ≠ country then flag ++ " " ++ country ++ " - " ++ city
  else if country ≠ "" then flag ++ " " ++ country
  else "🌍 未知地区"

/-- Sub-probe phases, recorded in invocation order so that the short-circuit
behaviour of the engines is visible in the embedding. -/
inductive Phase where
  | tcpConnectivity
  | speedTest
  | latencyStability
  | unlockTest
deriving DecidableEq, Repr

/-- Models `RealSpeedTester.test_node_comprehensive`, with connectivity and speed
outcomes supplied by oracles; the second component lists the sub-probes the
control flow actually reached. -/
def test_node_comprehensive (node : Node) (conn : ConnResult) (speed : SpeedResult) :
    TestResult × List Phase :=
  let result : TestResult :=
    { name := node.name
      server := node.server
      port := node.port
      protocol := node.protocol.toUpper }
  -- 1. TCP connectivity test (`result.update(connectivity)`)
  let result :=
    { result with
      status := some conn.status
      latency_ms := conn.latency_ms
      ip := conn.ip
      error := conn.error }
  if conn.status ≠ "connected" then
    ({ result with
       overall_status := some "❌ 连接失败"
       status_emoji := some "❌"
       status_text := some "连接失败" }, [Phase.tcpConnectivity])
  else
    -- 2. geo info
    let geo := conn.geo_info.getD {}
    let result :=
      { result with
        region := some (_format_region geo)
        isp := some (geo.isp.getD "未知ISP")
        city := some (geo.city.getD "")
        country := some (geo.country.getD "未知") }
    -- 3. speed test
    let result :=
      if speed.status = "success" then
        let result :=
          { result with
            download_speed_mbps := some (speed.download_speed_mbps.getD 0)
            download_speed_kbps := some (speed.download_speed_kbps.getD 0)
            downloaded_bytes := some (speed.downloaded_bytes.getD 0)
            downloaded_mb := some (speed.downloaded_mb.getD 0)
            test_duration := some (speed.total_time_seconds.getD 0)
            first_byte_latency := some (speed.first_byte_latency_ms.getD 0)
            test_url := some (speed.test_url.getD "") }
        let spd := speed.download_speed_mbps.getD 0
        if spd > 50 then
          { result with overall_status := some "🚀 极速", status_emoji := some "🚀",
                        status_text := some "极速" }
        else if spd > 20 then
          { result with overall_status := some "⚡ 快速", status_emoji := some "⚡",
                        status_text := some "快速" }
        else if spd > 5 then
          { result with overall_status := some "✅ 正常", status_emoji := some "✅",
                        status_text := some "正常" }
        else if spd > 1 then
          { result with overall_status := some "🐌 较慢", status_emoji := some "🐌",
                        status_text := some "较慢" }
        else
          { result with overall_status := some "❌ 极慢", status_emoji := some "❌",
                        status_text := some "极慢" }
      else
        { result with
          download_speed_mbps := some 0
          download_speed_kbps := some 0
          overall_status := some "❌ 测速失败"
          status_emoji := some "❌"
          status_text := some "测速失败"
          speed_error := some (speed.error.getD "未知错误") }
    -- 4. quality score
    let result := { result with quality_score := some (_calculate_quality_score result) }
    (result, [Phase.tcpConnectivity, Phase.speedTest])

/-! ## Platform unlock checker (`platform_unlock_tester.py`) and the
advanced scorer (`advanced_speedtester.py`) -/

/-- Python `round` half-to-even on an exact rational. -/
def roundHalfEven (q : ℚ) : ℤ :=
  let f := ⌊q⌋
  let r := q - f
  if r < 1 / 2 then f
  else if 1 / 2 < r then f + 1
  else if f % 2 = 0 then f else f + 1

/-- Python `round(q, 1)`. -/
def round1 (q : ℚ) : ℚ := (roundHalfEven (q * 10) : ℚ) / 10

/-- Python `int(q)`: truncation toward zero. -/
def pyTruncInt (q : ℚ) : ℤ := if 0 ≤ q then ⌊q⌋ else ⌈q⌉

/-- The dict returned by `test_platform_unlock`, characterised by its
per-platform `unlocked` booleans (the summary fields are derived from them,
exactly as in the source). -/
structure UnlockResults where
  platforms : List Bool
deriving DecidableEq, Repr

def UnlockResults.unlocked_platforms (u : UnlockResults) : Nat :=
  (u.platforms.filter (fun b => b)).length

def UnlockResults.total_platforms (u : UnlockResults) : Nat := u.platforms.length

/-- Models `summary['unlock_rate'] = round(unlocked/total*100, 1)` (0 when no
platforms were tested). -/
def UnlockResults.unlock_rate (u : UnlockResults) : ℚ :=
  if u.total_platforms = 0 then 0
  else round1 ((u.unlocked_platforms : ℚ) / (u.total_platforms : ℚ) * 100)

/-- Outcome of `_multi_thread_speed_test` (a network oracle). -/
structure AdvSpeedResult where
  download_speed_mbps : ℚ := 0
  download_speed_kbps : ℚ := 0
  upload_speed_mbps : ℚ := 0
  test_server : Option String := none
  downloaded_mb : Option ℚ := none
  test_duration : Option ℚ := none
  first_byte_latency : Option ℚ := none
  speed_test_error : Option String := none
deriving DecidableEq, Repr

/-- Outcome of `_latency_stability_test` (a network oracle). -/
structure LatencyResult where
  avg_latency : ℚ := 0
  min_latency : Option ℚ := none
  max_latency : Option ℚ := none
  jitter : Option ℚ := none
  packet_loss : Option ℚ := none
  latency_test_error : Option String := none
deriving DecidableEq, Repr

/-- The per-node result dict of `AdvancedSpeedTester.comprehensive_test`
(only keys the source writes or reads). -/
structure AdvResult where
  name : String := ""
  server : Option String := none
  port : Int := 0
  protocol : String := ""
  status : Option String := none
  error : Option String := none
  latency_ms : Option ℚ := none
  ip : Option String := none
  region : Option String := none
  isp : Option String := none
  download_speed_mbps : Option ℚ := none
  download_speed_kbps : Option ℚ := none
  upload_speed_mbps : Option ℚ := none
  test_server : Option String := none
  downloaded_mb : Option ℚ := none
  test_duration : Option ℚ := none
  first_byte_latency : Option ℚ := none
  speed_test_error : Option String := none
  avg_latency : Option ℚ := none
  min_latency : Option ℚ := none
  max_latency : Option ℚ := none
  jitter : Option ℚ := none
  packet_loss : Option ℚ := none
  latency_test_error : Option String := none
  unlock_test : Option UnlockResults := none
  overall_status : Option String := none
  quality_score : Option Int := none
deriving DecidableEq, Repr

/-- Connectivity block (25 pts + latency bonus) of `_calculate_advanced_score`. -/
def advConnectivityPoints (result : AdvResult) : Int :=
  if result.status = some "connected" then
    let latency := result.latency_ms.getD 1000
    25 + (if latency < 50 then 15
          else if latency < 100 then 12
          else if latency < 200 then 8
          else if latency < 500 then 4
          else 0)
  else 0

/-- Speed block (40 pts) of `_calculate_advanced_score`. -/
def advSpeedPoints (speed : ℚ) : Int :=
  if speed > 100 then 40
  else if speed > 50 then 35
  else if speed > 20 then 30
  else if speed > 10 then 25
  else if speed > 5 then 20
  else if speed > 1 then 15
  else if speed > 0.1 then 10
  else 0

/-- Stability block (5 pts packet loss + 5 pts jitter) of
`_calculate_advanced_score`. -/
def advStabilityPoints (jitter packet_loss : ℚ) : Int :=
  (if packet_loss = 0 then 5
   else if packet_loss < 5 then 3
   else if packet_loss < 10 then 1
   else 0)
  + (if jitter < 10 then 5
     else if jitter < 50 then 3
     else if jitter < 100 then 1
     else 0)

/-- Unlock block (`int(unlock_rate / 10)`, applied when the `unlock_test`
dict is present and truthy) of `_calculate_advanced_score`. -/
def advUnlockPoints (unlock_test : Option UnlockResults) : Int :=
  match unlock_test with
  | none => 0
  | some u => pyTruncInt (u.unlock_rate / 10)

/-- Models `AdvancedSpeedTester._calculate_advanced_score` (0-100): the sequential
`score += …` blocks of the source, summed, then clamped by `min(score, 100)`. -/
def _calculate_advanced_score (result : AdvResult) : Int :=
  min (advConnectivityPoints result
        + advSpeedPoints (result.download_speed_mbps.getD 0)
        + advStabilityPoints (result.jitter.getD 1000) (result.packet_loss.getD 100)
        + advUnlockPoints result.unlock_test) 100

/-- Models `AdvancedSpeedTester._get_status_by_score`. -/
def _get_status_by_score (score : Int) : String :=
  if score ≥ 90 then "🏆 优秀"
  else if score ≥ 80 then "🚀 极速"
  else if score ≥ 70 then "⚡ 快速"
  else if score ≥ 60 then "✅ 良好"
  else if score ≥ 40 then "🐌 一般"
  else if score ≥ 20 then "❌ 较差"
  else "💀 极差"

/-- Models `AdvancedSpeedTester.comprehensive_test`, with all network outcomes
supplied by oracles; the second component lists the sub-probes reached. -/
def comprehensive_test (node : Node) (conn : ConnResult) (speed : AdvSpeedResult)
    (lat : LatencyResult) (unlock : UnlockResults) : AdvResult × List Phase :=
  let result : AdvResult :=
    { name := node.name
      server := node.server
      port := node.port
      protocol := node.protocol }
  -- 1. basic connectivity test (`result.update(connectivity)`)
  let result :=
    { result with
      status := some conn.status
      latency_ms := conn.latency_ms
      ip := conn.ip
      error := conn.error
      region := conn.region
      isp := conn.isp }
  if conn.status ≠ "connected" then
    ({ result with
       overall_status := some "❌ 连接失败"
       quality_score := some 0 }, [Phase.tcpConnectivity])
  else
    -- 2. multi-thread speed test (`result.update(speed_results)`)
    let result :=
      { result with
        download_speed_mbps := some speed.download_speed_mbps
        download_speed_kbps := some speed.download_speed_kbps
        upload_speed_mbps := some speed.upload_speed_mbps
        test_server := speed.test_server
        downloaded_mb := speed.downloaded_mb
        test_duration := speed.test_duration
        first_byte_latency := speed.first_byte_latency
        speed_test_error := speed.speed_test_error }
    -- 3. latency stability test (`result.update(latency_test)`)
    let result :=
      { result with
        avg_latency := some lat.avg_latency
        min_latency := lat.min_latency
        max_latency := lat.max_latency
        jitter := lat.jitter
        packet_loss := lat.packet_loss
        latency_test_error := lat.latency_test_error }
    -- 4. platform unlock test
    let result := { result with unlock_test := some unlock }
    -- 5. composite score and status
    let result := { result with quality_score := some (_calculate_advanced_score result) }
    let result :=
      { result with
        overall_status := some (_get_status_by_score ((result.quality_score).getD 0)) }
    (result, [Phase.tcpConnectivity, Phase.speedTest, Phase.latencyStability, Phase.unlockTest])

/-! ## Batch orchestrator (`RealSpeedTester.test_multiple_nodes`)

The worker pool and `as_completed` collection are wall-clock scheduling; in
the embedding each node's probe outcome (a result, or a raised exception) is
an oracle, and so is the batch deadline: `as_completed(futures, timeout=120)`
raises `TimeoutError` — outside the inner `try`, so past every handler — as
soon as it would have to wait beyond 120 s of wall clock for an incomplete
future.  Whether all probes complete within that budget is the Boolean
oracle `deadlineMet`; when they do not, the partial `results` list is
discarded by the escaping exception and the caller gets nothing.  The
collection order (a permutation of the input decided by completion times)
does not affect the claims settled here, which survive the final sort. -/

/-- The synthetic dict built in the `except` branch of the collection loop. -/
def syntheticErrorResult (node : Node) (e : String) : TestResult :=
  { name := node.name
    server := node.server
    port := node.port
    protocol := node.protocol.toUpper
    overall_status := some "❌ 测试异常"
    status_emoji := some "❌"
    status_text := some "测试异常"
    error := some e
    quality_score := some 0 }

/-- The sort key `x.get('quality_score', 0)`. -/
def qscore (r : TestResult) : Int := r.quality_score.getD 0

/-- Stable descending-by-key insertion (models `list.sort(key=..., reverse=True)`,
which sorts stably by the key in non-increasing order). -/
def insertByScore (r : TestResult) : List TestResult → List TestResult
  | [] => [r]
  | x :: xs => if qscore x < qscore r then r :: x :: xs else x :: insertByScore r xs

def sortByScoreDesc (l : List TestResult) : List TestResult := l.foldr insertByScore []

/-- The collection loop and final sort of `test_multiple_nodes` (the path
taken when every future completes in time): every node yields exactly one
entry — its probe's result, or the synthetic error result when the probe
raised — and the batch is sorted by quality score, best first. -/
def collectResults (nodes : List Node) (probe : Node → Except String TestResult) :
    List TestResult :=
  let results := nodes.map fun node =>
    match probe node with
    | .ok r => r
    | .error e => syntheticErrorResult node e
  sortByScoreDesc results

/-- Models `test_multiple_nodes`.  `maxWorkers` only bounds concurrency and
does not influence the collected set; `deadlineMet` is the wall-clock oracle
for the `as_completed(future_to_node, timeout=120)` batch deadline: when it
is false, `as_completed` raises `TimeoutError`, which no handler in the
function catches, so the exception aborts the batch and no results — not
even already-collected ones — are returned. -/
def test_multiple_nodes (nodes : List Node) (probe : Node → Except String TestResult)
    (_maxWorkers : Nat) (deadlineMet : Bool) : Except PyErr (List TestResult) :=
  if deadlineMet then .ok (collectResults nodes probe)
  else .error "concurrent.futures.TimeoutError"

/-- The per-protocol mandatory fields of a parsed descriptor, as the code
actually enforces them: `server` and `port` always; the credential for
VMess/VLess (uuid), Shadowsocks (method and password) and Trojan (password).
Hysteria2's password is *not* enforced by the code. -/
def mandatoryOk (n : Node) : Prop :=
  truthyS n.server = true ∧ n.port ≠ 0 ∧
  ((n.protocol = "vmess" ∨ n.protocol = "vless") → truthyS n.uuid = true) ∧
  (n.protocol = "shadowsocks" → truthyS n.method = true ∧ truthyS n.password = true) ∧
  (n.protocol = "trojan" → truthyS n.password = true)

/-! ## Concrete example values used by counterexamples and witnesses -/

/-- A non-connected result dict carrying nonzero speed metrics. -/
def failedButFastResult : TestResult :=
  { status := some "failed", download_speed_mbps := some 60, first_byte_latency := some 100 }

/-- The descriptor `parse_vless_link` produces for
`vless://uuid@example.com:443`. -/
def vlessExampleNode : Node :=
  { name := "Unknown VLess Node", server := some "example.com", port := 443
    uuid := some "uuid", protocol := "vless", encryption := "none"
    security := "none", typ := "tcp", headerType := "none" }

/-- A VMess link whose base64 JSON payload is
`{"add":"1.2.3.4","port":70000,"id":"myuuid"}`. -/
def vmessBigPortLink : String :=
  "vmess://eyJhZGQiOiIxLjIuMy40IiwicG9ydCI6NzAwMDAsImlkIjoibXl1dWlkIn0="

/-- A subscription body with two valid Trojan links around one malformed line. -/
def twoGoodOneBadBody : String :=
  "trojan://pw@example.com:443#A\nnot-a-link\ntrojan://pw2@example.com:8443#B"

end SpeedBot

namespace SpeedBot

/-! ## Helper lemmas: rounding and the unlock rate -/

theorem roundHalfEven_nonneg {q : ℚ} (h : 0 ≤ q) : 0 ≤ roundHalfEven q := by
  have hf : (0 : ℤ) ≤ ⌊q⌋ := Int.floor_nonneg.mpr h
  unfold roundHalfEven
  dsimp only
  split_ifs <;> omega

theorem roundHalfEven_le {q : ℚ} {B : ℤ} (h : q ≤ (B : ℚ)) : roundHalfEven q ≤ B := by
  have hf : ⌊q⌋ ≤ B := by
    have := Int.floor_le_floor h
    simpa using this
  have hstrict : ⌊q⌋ = B → q - (⌊q⌋ : ℚ) ≤ 0 := by
    intro heq
    rw [heq]
    linarith
  unfold roundHalfEven
  dsimp only
  split_ifs with h1 h2 h3
  · exact hf
  · rcases lt_or_eq_of_le hf with h' | h'
    · omega
    · have := hstrict h'
      linarith
  · exact hf
  · rcases lt_or_eq_of_le hf with h' | h'
    · omega
    · have := hstrict h'
      linarith

theorem unlock_rate_bounds (u : UnlockResults) :
    0 ≤ u.unlock_rate ∧ u.unlock_rate ≤ 100 := by
  unfold UnlockResults.unlock_rate
  split_ifs with h
  · norm_num
  · have htpos : (0 : ℚ) < (u.total_platforms : ℚ) := by
      exact_mod_cast Nat.pos_of_ne_zero h
    have hle : (u.unlocked_platforms : ℚ) ≤ (u.total_platforms : ℚ) := by
      exact_mod_cast List.length_filter_le _ u.platforms
    have hx0 : 0 ≤ (u.unlocked_platforms : ℚ) / (u.total_platforms : ℚ) * 100 := by positivity
    have hdiv : (u.unlocked_platforms : ℚ) / (u.total_platforms : ℚ) ≤ 1 :=
      (div_le_one htpos).mpr hle
    have hx100 : (u.unlocked_platforms : ℚ) / (u.total_platforms : ℚ) * 100 ≤ 100 := by
      nlinarith
    unfold round1
    constructor
    · have h0 : (0 : ℤ) ≤ roundHalfEven ((u.unlocked_platforms : ℚ) / (u.total_platforms : ℚ) * 100 * 10) :=
        roundHalfEven_nonneg (by positivity)
      have : (0 : ℚ) ≤ (roundHalfEven ((u.unlocked_platforms : ℚ) / (u.total_platforms : ℚ) * 100 * 10) : ℚ) := by
        exact_mod_cast h0
      linarith
    · have hB : roundHalfEven ((u.unlocked_platforms : ℚ) / (u.total_platforms : ℚ) * 100 * 10) ≤ (1000 : ℤ) := by
        apply roundHalfEven_le
        push_cast
        linarith
      have : (roundHalfEven ((u.unlocked_platforms : ℚ) / (u.total_platforms : ℚ) * 100 * 10) : ℚ) ≤ 1000 := by
        exact_mod_cast hB
      linarith

/-! ## Helper lemmas: bounds of the scoring blocks -/

theorem connectivityPoints_bounds (r : TestResult) :
    0 ≤ connectivityPoints r ∧ connectivityPoints r ≤ 40 := by
  unfold connectivityPoints
  dsimp only
  split_ifs <;> omega

theorem speedPoints_bounds (s : ℚ) : 0 ≤ speedPoints s ∧ speedPoints s ≤ 60 := by
  unfold speedPoints
  split_ifs <;> omega

theorem stabilityPoints_bounds (fb : ℚ) : 0 ≤ stabilityPoints fb ∧ stabilityPoints fb ≤ 10 := by
  unfold stabilityPoints
  split_ifs <;> omega

theorem advConnectivityPoints_bounds (r : AdvResult) :
    0 ≤ advConnectivityPoints r ∧ advConnectivityPoints r ≤ 40 := by
  unfold advConnectivityPoints
  dsimp only
  split_ifs <;> omega

theorem advSpeedPoints_bounds (s : ℚ) : 0 ≤ advSpeedPoints s ∧ advSpeedPoints s ≤ 40 := by
  unfold advSpeedPoints
  split_ifs <;> omega

theorem advStabilityPoints_bounds (j p : ℚ) :
    0 ≤ advStabilityPoints j p ∧ advStabilityPoints j p ≤ 10 := by
  unfold advStabilityPoints
  split_ifs <;> omega

theorem advUnlockPoints_bounds (u : Option UnlockResults) :
    0 ≤ advUnlockPoints u ∧ advUnlockPoints u ≤ 10 := by
  cases u with
  | none => simp [advUnlockPoints]
  | some v =>
    obtain ⟨h0, h100⟩ := unlock_rate_bounds v
    have hq0 : (0 : ℚ) ≤ v.unlock_rate / 10 := by positivity
    simp only [advUnlockPoints, pyTruncInt, if_pos hq0]
    constructor
    · exact Int.floor_nonneg.mpr hq0
    · have h10 : v.unlock_rate / 10 ≤ ((10 : ℤ) : ℚ) := by push_cast; linarith
      have := Int.floor_le_floor h10
      simpa using this

/-! ## Claim C2 — the scorers are total and bounded -/

/-- C2: both scoring functions are total functions of their result record
(they are Lean functions, hence defined on every `TestResult` / `AdvResult`,
including failed and errored probes), and their value always lies in
[0, 100]. -/
theorem score_total_and_bounded :
    ∀ (r : TestResult) (a : AdvResult),
      0 ≤ _calculate_quality_score r ∧ _calculate_quality_score r ≤ 100 ∧
      0 ≤ _calculate_advanced_score a ∧ _calculate_advanced_score a ≤ 100 := by
  intro r a
  obtain ⟨c0, c1⟩ := connectivityPoints_bounds r
  obtain ⟨s0, s1⟩ := speedPoints_bounds (r.download_speed_mbps.getD 0)
  obtain ⟨f0, f1⟩ := stabilityPoints_bounds (r.first_byte_latency.getD 1000)
  obtain ⟨ac0, ac1⟩ := advConnectivityPoints_bounds a
  obtain ⟨as0, as1⟩ := advSpeedPoints_bounds (a.download_speed_mbps.getD 0)
  obtain ⟨at0, at1⟩ := advStabilityPoints_bounds (a.jitter.getD 1000) (a.packet_loss.getD 100)
  obtain ⟨au0, au1⟩ := advUnlockPoints_bounds a.unlock_test
  unfold _calculate_quality_score _calculate_advanced_score
  exact ⟨le_min (by omega) (by norm_num), min_le_right _ _,
         le_min (by omega) (by norm_num), min_le_right _ _⟩

/-! ## Claim C3 — scoring of non-connected results -/

/-- C3 counterexample: the scoring function applied to a result whose
connectivity status is `failed` but whose throughput and first-byte fields
are nonzero returns 70, not 0 — the claimed short-circuit does not hold of
`_calculate_quality_score` itself. -/
theorem score_nonconnected_not_zero_cex :
    failedButFastResult.status ≠ some "connected" ∧
    _calculate_quality_score failedButFastResult = 70 := by
  constructor
  · decide
  · decide

/-- C3 amended: for a probe whose connectivity status is not `connected`,
`test_node_comprehensive` finalizes the result without ever invoking the
scoring function: the `quality_score` key is absent, so every downstream
read (`result.get('quality_score', 0)`) yields 0. -/
theorem nonconnected_probe_result_scores_zero :
    ∀ (node : Node) (conn : ConnResult) (speed : SpeedResult),
      conn.status ≠ "connected" →
      (test_node_comprehensive node conn speed).1.quality_score = none ∧
      qscore (test_node_comprehensive node conn speed).1 = 0 := by
  intro node conn speed h
  unfold test_node_comprehensive
  rw [if_pos h]
  exact ⟨rfl, rfl⟩

theorem nonconnected_probe_result_scores_zero_witness :
    (test_node_comprehensive {} { status := "timeout" } { status := "failed" }).1.quality_score
      = none ∧
    qscore (test_node_comprehensive {} { status := "timeout" } { status := "failed" }).1 = 0 :=
  nonconnected_probe_result_scores_zero {} { status := "timeout" } { status := "failed" }
    (by decide)

/-! ## Claim C7 — monotonicity in throughput -/

/-- C7: for two results that agree on every field except
`download_speed_mbps`, the one with the higher throughput never scores
lower. -/
theorem quality_score_monotone_in_throughput :
    ∀ (r : TestResult) (s₁ s₂ : ℚ), s₁ ≤ s₂ →
      _calculate_quality_score { r with download_speed_mbps := some s₁ } ≤
        _calculate_quality_score { r with download_speed_mbps := some s₂ } := by
  intro r s₁ s₂ h
  have hmono : speedPoints s₁ ≤ speedPoints s₂ := by
    unfold speedPoints
    split_ifs <;> first | omega | linarith
  show min (connectivityPoints { r with download_speed_mbps := some s₁ }
            + speedPoints s₁
            + stabilityPoints (r.first_byte_latency.getD 1000)) 100 ≤
       min (connectivityPoints { r with download_speed_mbps := some s₂ }
            + speedPoints s₂
            + stabilityPoints (r.first_byte_latency.getD 1000)) 100
  have hc : connectivityPoints { r with download_speed_mbps := some s₁ } =
      connectivityPoints { r with download_speed_mbps := some s₂ } := rfl
  rw [hc]
  exact min_le_min (by omega) le_rfl

theorem quality_score_monotone_in_throughput_witness :
    _calculate_quality_score { failedButFastResult with download_speed_mbps := some 2 } ≤
      _calculate_quality_score { failedButFastResult with download_speed_mbps := some 30 } :=
  quality_score_monotone_in_throughput failedButFastResult 2 30 (by norm_num)

/-! ## Claim C8 — connectivity failure short-circuits both probe engines -/

/-- C8: in both probe engines, once the connectivity phase ends in any
status other than `connected`, the control flow reaches no further
sub-probe — the recorded phase trace is exactly `[tcpConnectivity]`, so in
particular no throughput probe runs — and the result is finalized
immediately with the failure status. -/
theorem connectivity_failure_short_circuits :
    ∀ (node : Node) (conn : ConnResult) (speed : SpeedResult)
      (aspeed : AdvSpeedResult) (lat : LatencyResult) (unlock : UnlockResults),
      conn.status ≠ "connected" →
      (test_node_comprehensive node conn speed).2 = [Phase.tcpConnectivity] ∧
      Phase.speedTest ∉ (test_node_comprehensive node conn speed).2 ∧
      (test_node_comprehensive node conn speed).1.overall_status = some "❌ 连接失败" ∧
      (comprehensive_test node conn aspeed lat unlock).2 = [Phase.tcpConnectivity] ∧
      Phase.speedTest ∉ (comprehensive_test node conn aspeed lat unlock).2 ∧
      (comprehensive_test node conn aspeed lat unlock).1.overall_status = some "❌ 连接失败" ∧
      (comprehensive_test node conn aspeed lat unlock).1.quality_score = some 0 := by
  intro node conn speed aspeed lat unlock h
  unfold test_node_comprehensive comprehensive_test
  rw [if_pos h, if_pos h]
  refine ⟨rfl, ?_, rfl, rfl, ?_, rfl, rfl⟩ <;> simp

theorem connectivity_failure_short_circuits_witness :
    (test_node_comprehensive {} { status := "timeout" } { status := "failed" }).2
      = [Phase.tcpConnectivity] ∧
    Phase.speedTest ∉ (test_node_comprehensive {} { status := "timeout" } { status := "failed" }).2 ∧
    (test_node_comprehensive {} { status := "timeout" } { status := "failed" }).1.overall_status
      = some "❌ 连接失败" ∧
    (comprehensive_test {} { status := "timeout" } {} {} ⟨[]⟩).2 = [Phase.tcpConnectivity] ∧
    Phase.speedTest ∉ (comprehensive_test {} { status := "timeout" } {} {} ⟨[]⟩).2 ∧
    (comprehensive_test {} { status := "timeout" } {} {} ⟨[]⟩).1.overall_status
      = some "❌ 连接失败" ∧
    (comprehensive_test {} { status := "timeout" } {} {} ⟨[]⟩).1.quality_score = some 0 :=
  connectivity_failure_short_circuits {} { status := "timeout" } { status := "failed" } {} {} ⟨[]⟩
    (by decide)

/-! ## Helper lemmas: the orchestrator's sort -/

theorem length_insertByScore (r : TestResult) (l : List TestResult) :
    (insertByScore r l).length = l.length + 1 := by
  induction l with
  | nil => rfl
  | cons x xs ih =>
    unfold insertByScore
    split_ifs <;> simp [ih]

theorem length_sortByScoreDesc (l : List TestResult) :
    (sortByScoreDesc l).length = l.length := by
  induction l with
  | nil => rfl
  | cons x xs ih =>
    unfold sortByScoreDesc at *
    simp [List.foldr_cons, length_insertByScore, ih]

theorem mem_insertByScore {a r : TestResult} {l : List TestResult} :
    a ∈ insertByScore r l ↔ a = r ∨ a ∈ l := by
  induction l with
  | nil => simp [insertByScore]
  | cons x xs ih =>
    unfold insertByScore
    split_ifs with h
    · constructor
      · intro hm
        rcases List.mem_cons.mp hm with h' | h'
        · exact Or.inl h'
        · exact Or.inr h'
      · intro hm
        rcases hm with h' | h'
        · exact List.mem_cons.mpr (Or.inl h')
        · exact List.mem_cons.mpr (Or.inr h')
    · constructor
      · intro hm
        rcases List.mem_cons.mp hm with h' | h'
        · exact Or.inr (List.mem_cons.mpr (Or.inl h'))
        · rcases ih.mp h' with h'' | h''
          · exact Or.inl h''
          · exact Or.inr (List.mem_cons.mpr (Or.inr h''))
      · intro hm
        rcases hm with h' | h'
        · exact List.mem_cons.mpr (Or.inr (ih.mpr (Or.inl h')))
        · rcases List.mem_cons.mp h' with h'' | h''
          · exact List.mem_cons.mpr (Or.inl h'')
          · exact List.mem_cons.mpr (Or.inr (ih.mpr (Or.inr h'')))

theorem mem_sortByScoreDesc {a : TestResult} {l : List TestResult} :
    a ∈ sortByScoreDesc l ↔ a ∈ l := by
  induction l with
  | nil => simp [sortByScoreDesc]
  | cons x xs ih =>
    unfold sortByScoreDesc at *
    simp only [List.foldr_cons, mem_insertByScore, ih, List.mem_cons]

theorem pairwise_insertByScore (r : TestResult) {l : List TestResult}
    (h : l.Pairwise (fun a b => qscore b ≤ qscore a)) :
    (insertByScore r l).Pairwise (fun a b => qscore b ≤ qscore a) := by
  induction l with
  | nil => simp [insertByScore]
  | cons x xs ih =>
    obtain ⟨hx, hxs⟩ := List.pairwise_cons.mp h
    unfold insertByScore
    split_ifs with hlt
    · refine List.pairwise_cons.mpr ⟨?_, h⟩
      intro b hb
      rcases List.mem_cons.mp hb with rfl | hb'
      · exact le_of_lt hlt
      · exact le_trans (hx b hb') (le_of_lt hlt)
    · refine List.pairwise_cons.mpr ⟨?_, ih hxs⟩
      intro b hb
      rcases mem_insertByScore.mp hb with rfl | hb'
      · exact not_lt.mp hlt
      · exact hx b hb'

theorem pairwise_sortByScoreDesc (l : List TestResult) :
    (sortByScoreDesc l).Pairwise (fun a b => qscore b ≤ qscore a) := by
  induction l with
  | nil => simp [sortByScoreDesc]
  | cons x xs ih =>
    unfold sortByScoreDesc at *
    exact pairwise_insertByScore x ih

/-! ## Claim C4 — one result per input node, exceptions converted -/

/-- C4 counterexample: even for a single node whose probe returns normally,
the orchestrator can return *no* results — when the wall clock exceeds the
120 s batch deadline (e.g. a queue of individually timing-out probes under
`W < N` workers), `as_completed` raises `TimeoutError` past every handler
and the batch aborts instead of yielding one result per node. -/
theorem orchestrator_batch_deadline_abort_cex :
    test_multiple_nodes [{}] (fun _ => .ok {}) 2 false =
      .error "concurrent.futures.TimeoutError" := rfl

/-- C4 (amended): when every probe completes within the 120 s batch
deadline, the orchestrator returns exactly one result per input node for
every worker count — a probe that raises is replaced by the synthetic error
result, which is part of the returned batch, and per-probe timeouts are
ordinary probe outcomes.  When the batch deadline expires first,
`as_completed` raises `TimeoutError` and the orchestrator aborts, returning
no results at all. -/
theorem orchestrator_one_result_per_node :
    ∀ (nodes : List Node) (probe : Node → Except String TestResult) (w : Nat),
      (∃ rs, test_multiple_nodes nodes probe w true = .ok rs ∧
        rs.length = nodes.length ∧
        ∀ node e, node ∈ nodes → probe node = .error e → syntheticErrorResult node e ∈ rs) ∧
      test_multiple_nodes nodes probe w false = .error "concurrent.futures.TimeoutError" := by
  intro nodes probe w
  refine ⟨⟨collectResults nodes probe, rfl, ?_, ?_⟩, rfl⟩
  · unfold collectResults
    rw [length_sortByScoreDesc, List.length_map]
  · intro node e hmem herr
    unfold collectResults
    rw [mem_sortByScoreDesc]
    refine List.mem_map.mpr ⟨node, hmem, ?_⟩
    rw [herr]

theorem orchestrator_one_result_per_node_witness :
    ∃ rs, test_multiple_nodes [{}] (fun _ => .error "boom") 2 true = .ok rs ∧
      rs.length = 1 ∧ syntheticErrorResult {} "boom" ∈ rs := by
  obtain ⟨rs, heq, hlen, hmem⟩ :=
    (orchestrator_one_result_per_node [{}] (fun _ => .error "boom") 2).1
  exact ⟨rs, heq, hlen, hmem {} "boom" (List.mem_singleton.mpr rfl) rfl⟩

/-! ## Claim C10 — the batch is returned sorted by quality score -/

/-- C10: every batch the orchestrator returns is sorted in non-increasing
order of `quality_score` (read with default 0, as every consumer does): any
earlier entry scores at least as high as any later one.  On the batch path
that returns nothing (the deadline abort) there is no output to order. -/
theorem orchestrator_output_sorted_by_score :
    ∀ (nodes : List Node) (probe : Node → Except String TestResult) (w : Nat)
      (d : Bool) (rs : List TestResult),
      test_multiple_nodes nodes probe w d = .ok rs →
      rs.Pairwise (fun a b => qscore b ≤ qscore a) := by
  intro nodes probe w d rs h
  unfold test_multiple_nodes at h
  split at h
  · simp only [Except.ok.injEq] at h
    subst h
    exact pairwise_sortByScoreDesc _
  · simp at h

theorem orchestrator_output_sorted_by_score_witness :
    (collectResults [{}] (fun _ => .error "boom")).Pairwise
      (fun a b => qscore b ≤ qscore a) :=
  orchestrator_output_sorted_by_score [{}] (fun _ => .error "boom") 2 true
    (collectResults [{}] (fun _ => .error "boom")) rfl

end SpeedBot

namespace SpeedBot

/-! ## Helper lemmas: parser inversion -/

theorem urlPort_ok {u : UrlParts} {p : Int} (h : u.port = .ok (some p)) :
    0 ≤ p ∧ p ≤ 65535 := by
  unfold UrlParts.port at h
  split at h
  · simp at h
  · split at h
    · simp at h
    · split at h
      · rename_i hcond
        simp only [Except.ok.injEq, Option.some.injEq] at h
        subst h
        exact hcond
      · simp at h

theorem parse_vless_body_ok_some {link : String} {n : Node}
    (h : parse_vless_body link = .ok (some n)) :
    n.protocol = "vless" ∧ truthyS n.server = true ∧
      (1 ≤ n.port ∧ n.port ≤ 65535) ∧ truthyS n.uuid = true := by
  unfold parse_vless_body at h
  split at h
  · simp at h
  · rename_i up hup
    split at h
    · simp at h
    · rename_i p hp
      dsimp only at h
      split at h
      · rename_i hcond
        simp only [Except.ok.injEq, Option.some.injEq] at h
        subst h
        obtain ⟨hs, hport, huuid⟩ := hcond
        refine ⟨rfl, hs, ?_, huuid⟩
        cases p with
        | none => dsimp only; norm_num
        | some v =>
          dsimp only
          obtain ⟨h0, h65⟩ := urlPort_ok hp
          by_cases hv : v = 0
          · subst hv
            norm_num
          · rw [if_pos hv]
            omega
      · simp at h

theorem parse_trojan_body_ok_some {link : String} {n : Node}
    (h : parse_trojan_body link = .ok (some n)) :
    n.protocol = "trojan" ∧ truthyS n.server = true ∧
      (1 ≤ n.port ∧ n.port ≤ 65535) ∧ truthyS n.password = true := by
  unfold parse_trojan_body at h
  split at h
  · simp at h
  · rename_i up hup
    split at h
    · simp at h
    · rename_i p hp
      dsimp only at h
      split at h
      · rename_i hcond
        simp only [Except.ok.injEq, Option.some.injEq] at h
        subst h
        obtain ⟨hs, hport, hpw⟩ := hcond
        refine ⟨rfl, hs, ?_, hpw⟩
        cases p with
        | none => dsimp only; norm_num
        | some v =>
          dsimp only
          obtain ⟨h0, h65⟩ := urlPort_ok hp
          by_cases hv : v = 0
          · subst hv
            norm_num
          · rw [if_pos hv]
            omega
      · simp at h

theorem parse_hysteria2_body_ok_some {link : String} {n : Node}
    (h : parse_hysteria2_body link = .ok (some n)) :
    n.protocol = "hysteria2" ∧ truthyS n.server = true ∧
      (1 ≤ n.port ∧ n.port ≤ 65535) := by
  unfold parse_hysteria2_body at h
  split at h
  · simp at h
  · rename_i up hup
    split at h
    · simp at h
    · rename_i p hp
      dsimp only at h
      split at h
      · rename_i hcond
        simp only [Except.ok.injEq, Option.some.injEq] at h
        subst h
        obtain ⟨hs, hport⟩ := hcond
        refine ⟨rfl, hs, ?_⟩
        cases p with
        | none => dsimp only; norm_num
        | some v =>
          dsimp only
          obtain ⟨h0, h65⟩ := urlPort_ok hp
          by_cases hv : v = 0
          · subst hv
            norm_num
          · rw [if_pos hv]
            omega
      · simp at h

theorem parse_ss_finish_ok_some {up : UrlParts} {method password : String} {n : Node}
    (h : parse_ss_finish up method password = .ok (some n)) :
    n.protocol = "shadowsocks" ∧ truthyS n.server = true ∧
      (1 ≤ n.port ∧ n.port ≤ 65535) ∧
      truthyS n.method = true ∧ truthyS n.password = true := by
  unfold parse_ss_finish at h
  split at h
  all_goals
    split at h
    · simp at h
    · rename_i p hp
      dsimp only at h
      split at h
      · rename_i hcond
        simp only [Except.ok.injEq, Option.some.injEq] at h
        subst h
        obtain ⟨hs, hport, hm, hpw⟩ := hcond
        refine ⟨rfl, hs, ?_, hm, hpw⟩
        cases p with
        | none => dsimp only; norm_num
        | some v =>
          dsimp only
          obtain ⟨h0, h65⟩ := urlPort_ok hp
          by_cases hv : v = 0
          · subst hv
            norm_num
          · rw [if_pos hv]
            omega
      · simp at h

theorem parse_ss_body_ok_some {link : String} {n : Node}
    (h : parse_ss_body link = .ok (some n)) :
    n.protocol = "shadowsocks" ∧ truthyS n.server = true ∧
      (1 ≤ n.port ∧ n.port ≤ 65535) ∧
      truthyS n.method = true ∧ truthyS n.password = true := by
  unfold parse_ss_body at h
  split at h
  · simp at h
  · split at h
    · simp at h
    · exact parse_ss_finish_ok_some h

theorem parse_vmess_body_ok_some {link : String} {n : Node}
    (h : parse_vmess_body link = .ok (some n)) :
    n.protocol = "vmess" ∧ truthyS n.server = true ∧
      n.port ≠ 0 ∧ truthyS n.uuid = true := by
  unfold parse_vmess_body at h
  dsimp only at h
  split at h
  · simp at h
  · split at h
    · simp at h
    · split at h
      · simp at h
      · split at h
        · simp at h
        · split at h
          · simp at h
          · split at h
            · rename_i hcond
              simp only [Except.ok.injEq, Option.some.injEq] at h
              subst h
              obtain ⟨hs, hport, huuid⟩ := hcond
              exact ⟨rfl, hs, hport, huuid⟩
            · simp at h
      · simp at h

theorem parse_vless_link_some {link : String} {n : Node}
    (h : parse_vless_link link = some n) : parse_vless_body link = .ok (some n) := by
  unfold parse_vless_link parse_vless_linkE at h
  by_cases hpre : strStartsWith link "vless://" = true
  · rw [if_neg (by simpa using hpre)] at h
    cases hb : parse_vless_body link with
    | ok r =>
      rw [hb] at h
      dsimp only at h
      rw [h]
    | error e =>
      rw [hb] at h
      simp at h
  · rw [if_pos (by simpa using hpre)] at h
    simp at h

theorem parse_trojan_link_some {link : String} {n : Node}
    (h : parse_trojan_link link = some n) : parse_trojan_body link = .ok (some n) := by
  unfold parse_trojan_link parse_trojan_linkE at h
  by_cases hpre : strStartsWith link "trojan://" = true
  · rw [if_neg (by simpa using hpre)] at h
    cases hb : parse_trojan_body link with
    | ok r =>
      rw [hb] at h
      dsimp only at h
      rw [h]
    | error e =>
      rw [hb] at h
      simp at h
  · rw [if_pos (by simpa using hpre)] at h
    simp at h

theorem parse_hysteria2_link_some {link : String} {n : Node}
    (h : parse_hysteria2_link link = some n) : parse_hysteria2_body link = .ok (some n) := by
  unfold parse_hysteria2_link parse_hysteria2_linkE at h
  by_cases hpre : strStartsWith link "hy2://" = true ∨ strStartsWith link "hysteria2://" = true
  · rw [if_neg (not_not_intro hpre)] at h
    cases hb : parse_hysteria2_body link with
    | ok r =>
      rw [hb] at h
      dsimp only at h
      rw [h]
    | error e =>
      rw [hb] at h
      simp at h
  · rw [if_pos hpre] at h
    simp at h

theorem parse_shadowsocks_link_some {link : String} {n : Node}
    (h : parse_shadowsocks_link link = some n) : parse_ss_body link = .ok (some n) := by
  unfold parse_shadowsocks_link parse_shadowsocks_linkE at h
  by_cases hpre : strStartsWith link "ss://" = true
  · rw [if_neg (by simpa using hpre)] at h
    cases hb : parse_ss_body link with
    | ok r =>
      rw [hb] at h
      dsimp only at h
      rw [h]
    | error e =>
      rw [hb] at h
      simp at h
  · rw [if_pos (by simpa using hpre)] at h
    simp at h

theorem parse_vmess_link_some {link : String} {n : Node}
    (h : parse_vmess_link link = some n) : parse_vmess_body link = .ok (some n) := by
  unfold parse_vmess_link parse_vmess_linkE at h
  by_cases hpre : strStartsWith link "vmess://" = true
  · rw [if_neg (by simpa using hpre)] at h
    cases hb : parse_vmess_body link with
    | ok r =>
      rw [hb] at h
      dsimp only at h
      rw [h]
    | error e =>
      rw [hb] at h
      simp at h
  · rw [if_pos (by simpa using hpre)] at h
    simp at h

theorem parse_vless_link_spec {link : String} {n : Node}
    (h : parse_vless_link link = some n) :
    n.protocol = "vless" ∧ truthyS n.server = true ∧
      (1 ≤ n.port ∧ n.port ≤ 65535) ∧ truthyS n.uuid = true :=
  parse_vless_body_ok_some (parse_vless_link_some h)

theorem parse_trojan_link_spec {link : String} {n : Node}
    (h : parse_trojan_link link = some n) :
    n.protocol = "trojan" ∧ truthyS n.server = true ∧
      (1 ≤ n.port ∧ n.port ≤ 65535) ∧ truthyS n.password = true :=
  parse_trojan_body_ok_some (parse_trojan_link_some h)

theorem parse_hysteria2_link_spec {link : String} {n : Node}
    (h : parse_hysteria2_link link = some n) :
    n.protocol = "hysteria2" ∧ truthyS n.server = true ∧
      (1 ≤ n.port ∧ n.port ≤ 65535) :=
  parse_hysteria2_body_ok_some (parse_hysteria2_link_some h)

theorem parse_shadowsocks_link_spec {link : String} {n : Node}
    (h : parse_shadowsocks_link link = some n) :
    n.protocol = "shadowsocks" ∧ truthyS n.server = true ∧
      (1 ≤ n.port ∧ n.port ≤ 65535) ∧
      truthyS n.method = true ∧ truthyS n.password = true :=
  parse_ss_body_ok_some (parse_shadowsocks_link_some h)

theorem parse_vmess_link_spec {link : String} {n : Node}
    (h : parse_vmess_link link = some n) :
    n.protocol = "vmess" ∧ truthyS n.server = true ∧
      n.port ≠ 0 ∧ truthyS n.uuid = true :=
  parse_vmess_body_ok_some (parse_vmess_link_some h)

theorem parse_single_node_cases {link : String} {n : Node}
    (h : parse_single_node link = some n) :
    parse_vmess_link (strStrip link) = some n ∨
      parse_vless_link (strStrip link) = some n ∨
      parse_shadowsocks_link (strStrip link) = some n ∨
      parse_hysteria2_link (strStrip link) = some n ∨
      parse_trojan_link (strStrip link) = some n := by
  have hE : parse_single_nodeE link = .ok (some n) := by
    unfold parse_single_node at h
    cases he : parse_single_nodeE link with
    | ok r =>
      rw [he] at h
      dsimp only at h
      rw [h]
    | error e =>
      rw [he] at h
      simp at h
  unfold parse_single_nodeE at hE
  dsimp only at hE
  split at hE
  · exact Or.inl (by unfold parse_vmess_link; rw [hE])
  · split at hE
    · exact Or.inr (Or.inl (by unfold parse_vless_link; rw [hE]))
    · split at hE
      · exact Or.inr (Or.inr (Or.inl (by unfold parse_shadowsocks_link; rw [hE])))
      · split at hE
        · exact Or.inr (Or.inr (Or.inr (Or.inl (by unfold parse_hysteria2_link; rw [hE]))))
        · split at hE
          · exact Or.inr (Or.inr (Or.inr (Or.inr (by unfold parse_trojan_link; rw [hE]))))
          · simp at hE

end SpeedBot

namespace SpeedBot

/-! ## Claim C1 — mandatory fields of parsed descriptors -/

/-- C1 counterexample: a Hysteria2 link carrying no password at all still
yields a descriptor, whose password field is the empty string — the
protocol's mandatory credential is not enforced for Hysteria2. -/
theorem hysteria2_empty_password_cex :
    (parse_single_node "hy2://example.com:443").map Node.protocol = some "hysteria2" ∧
    (parse_single_node "hy2://example.com:443").map Node.server = some (some "example.com") ∧
    (parse_single_node "hy2://example.com:443").map Node.password = some (some "") := by
  exact ⟨by decide, by decide, by decide⟩

/-- C1 (amended): every descriptor any parser returns has a non-empty host
and a nonzero port, and the mandatory credential is non-empty for
VMess/VLess (uuid), Shadowsocks (method and password) and Trojan
(password); for Hysteria2 the code only enforces host and port, and the
password may be empty. -/
theorem parsed_descriptor_mandatory_fields :
    ∀ (link : String) (n : Node), parse_single_node link = some n → mandatoryOk n := by
  intro link n h
  rcases parse_single_node_cases h with h' | h' | h' | h' | h'
  · obtain ⟨hp, hs, hport, huuid⟩ := parse_vmess_link_spec h'
    refine ⟨hs, hport, fun _ => huuid, fun hc => ?_, fun hc => ?_⟩ <;>
      rw [hp] at hc <;> exact absurd hc (by decide)
  · obtain ⟨hp, hs, hport, huuid⟩ := parse_vless_link_spec h'
    refine ⟨hs, by omega, fun _ => huuid, fun hc => ?_, fun hc => ?_⟩ <;>
      rw [hp] at hc <;> exact absurd hc (by decide)
  · obtain ⟨hp, hs, hport, hm, hpw⟩ := parse_shadowsocks_link_spec h'
    refine ⟨hs, by omega, fun hc => ?_, fun _ => ⟨hm, hpw⟩, fun hc => ?_⟩
    · rcases hc with hc | hc <;> rw [hp] at hc <;> exact absurd hc (by decide)
    · rw [hp] at hc
      exact absurd hc (by decide)
  · obtain ⟨hp, hs, hport⟩ := parse_hysteria2_link_spec h'
    refine ⟨hs, by omega, fun hc => ?_, fun hc => ?_, fun hc => ?_⟩
    · rcases hc with hc | hc <;> rw [hp] at hc <;> exact absurd hc (by decide)
    · rw [hp] at hc
      exact absurd hc (by decide)
    · rw [hp] at hc
      exact absurd hc (by decide)
  · obtain ⟨hp, hs, hport, hpw⟩ := parse_trojan_link_spec h'
    refine ⟨hs, by omega, fun hc => ?_, fun hc => ?_, fun _ => hpw⟩
    · rcases hc with hc | hc <;> rw [hp] at hc <;> exact absurd hc (by decide)
    · rw [hp] at hc
      exact absurd hc (by decide)

theorem parsed_descriptor_mandatory_fields_witness :
    mandatoryOk vlessExampleNode :=
  parsed_descriptor_mandatory_fields "vless://uuid@example.com:443" vlessExampleNode (by decide)

/-! ## Claim C5 — port range checking -/

/-- C5 counterexample: a VMess link whose JSON payload carries port 70000
(outside 1–65535) still yields a descriptor, with that port. -/
theorem vmess_out_of_range_port_cex :
    (parse_single_node vmessBigPortLink).map Node.port = some 70000 := by decide

/-- C5 (amended): the URL-based parsers (VLess, Shadowsocks, Hysteria2,
Trojan) only produce ports in 1–65535 — an out-of-range or negative port
string makes `urlparse.port` raise and parsing fail, and port 0 is replaced
by the protocol default; the VMess parser checks only that the port is
nonzero (out-of-range values such as 70000 pass through). -/
theorem parser_port_ranges :
    ∀ (link : String) (n : Node),
      (parse_vless_link link = some n → 1 ≤ n.port ∧ n.port ≤ 65535) ∧
      (parse_shadowsocks_link link = some n → 1 ≤ n.port ∧ n.port ≤ 65535) ∧
      (parse_hysteria2_link link = some n → 1 ≤ n.port ∧ n.port ≤ 65535) ∧
      (parse_trojan_link link = some n → 1 ≤ n.port ∧ n.port ≤ 65535) ∧
      (parse_vmess_link link = some n → n.port ≠ 0) := by
  intro link n
  refine ⟨fun h => ?_, fun h => ?_, fun h => ?_, fun h => ?_, fun h => ?_⟩
  · exact (parse_vless_link_spec h).2.2.1
  · exact (parse_shadowsocks_link_spec h).2.2.1
  · exact (parse_hysteria2_link_spec h).2.2
  · exact (parse_trojan_link_spec h).2.2.1
  · exact (parse_vmess_link_spec h).2.2.1

theorem parser_port_ranges_witness :
    1 ≤ vlessExampleNode.port ∧ vlessExampleNode.port ≤ 65535 :=
  (parser_port_ranges "vless://uuid@example.com:443" vlessExampleNode).1 (by decide)

/-! ## Claim C9 — no parser lets an exception escape -/

/-- C9: each protocol parser and the dispatching `parse_single_node`
terminate with an `.ok` value on every input string — the internal
`try/except` blocks convert every modelled exception (base64, UTF-8, JSON,
`int()`, `urlparse.port` errors) into `None`, so no exception reaches the
caller. -/
theorem parsers_never_raise :
    ∀ link : String,
      (∃ r, parse_vmess_linkE link = .ok r) ∧
      (∃ r, parse_vless_linkE link = .ok r) ∧
      (∃ r, parse_shadowsocks_linkE link = .ok r) ∧
      (∃ r, parse_hysteria2_linkE link = .ok r) ∧
      (∃ r, parse_trojan_linkE link = .ok r) ∧
      (∃ r, parse_single_nodeE link = .ok r) := by
  have hvm : ∀ l : String, ∃ r, parse_vmess_linkE l = .ok r := by
    intro l
    unfold parse_vmess_linkE
    split
    · exact ⟨none, rfl⟩
    · split
      · rename_i r _
        exact ⟨r, rfl⟩
      · exact ⟨none, rfl⟩
  have hvl : ∀ l : String, ∃ r, parse_vless_linkE l = .ok r := by
    intro l
    unfold parse_vless_linkE
    split
    · exact ⟨none, rfl⟩
    · split
      · rename_i r _
        exact ⟨r, rfl⟩
      · exact ⟨none, rfl⟩
  have hss : ∀ l : String, ∃ r, parse_shadowsocks_linkE l = .ok r := by
    intro l
    unfold parse_shadowsocks_linkE
    split
    · exact ⟨none, rfl⟩
    · split
      · rename_i r _
        exact ⟨r, rfl⟩
      · exact ⟨none, rfl⟩
  have hhy : ∀ l : String, ∃ r, parse_hysteria2_linkE l = .ok r := by
    intro l
    unfold parse_hysteria2_linkE
    split
    · exact ⟨none, rfl⟩
    · split
      · rename_i r _
        exact ⟨r, rfl⟩
      · exact ⟨none, rfl⟩
  have htr : ∀ l : String, ∃ r, parse_trojan_linkE l = .ok r := by
    intro l
    unfold parse_trojan_linkE
    split
    · exact ⟨none, rfl⟩
    · split
      · rename_i r _
        exact ⟨r, rfl⟩
      · exact ⟨none, rfl⟩
  intro link
  refine ⟨hvm link, hvl link, hss link, hhy link, htr link, ?_⟩
  unfold parse_single_nodeE
  dsimp only
  split
  · exact hvm _
  · split
    · exact hvl _
    · split
      · exact hss _
      · split
        · exact hhy _
        · split
          · exact htr _
          · exact ⟨none, rfl⟩

/-! ## Claim C6 — subscription bodies are parsed line by line -/

/-- C6: a line whose parse fails (or which is empty after stripping) is
skipped without affecting any other line of the subscription body; in
particular the concrete body with 2 valid links around 1 malformed line
yields exactly the 2 corresponding nodes. -/
theorem subscription_skips_malformed_lines :
    (∀ (pre post : List String) (bad : String), parseLine bad = none →
        parseLines (pre ++ bad :: post) = parseLines (pre ++ post)) ∧
    (parse_subscription_content twoGoodOneBadBody).length = 2 ∧
    (parse_subscription_content twoGoodOneBadBody).map Node.name = ["A", "B"] := by
  refine ⟨?_, by decide, by decide⟩
  intro pre post bad hbad
  unfold parseLines
  simp [List.filterMap_append, List.filterMap_cons, hbad]

theorem subscription_skips_malformed_lines_witness :
    parseLines (["trojan://pw@example.com:443#A"] ++ "not-a-link" :: []) =
      parseLines (["trojan://pw@example.com:443#A"] ++ []) :=
  subscription_skips_malformed_lines.1 ["trojan://pw@example.com:443#A"] [] "not-a-link"
    (by decide)

end SpeedBot
